import Mathlib

/-!
Shallow embedding of the suspicion-scoring engine of the LM Arena MVP
(src/lmarena.py).  Timestamps and scores are modelled as rationals;
pandas column operations become list projections; the Python set of
triggered rule names becomes a `Finset String`.
-/

namespace LMArena

/-- Trust status of a judge, the three labels assigned at lines 109-114
of the source. -/
inductive Status where
  | NORMAL
  | SUSPICIOUS
  | FLAGGED
deriving DecidableEq

/-- One vote record as built in `handle_vote` (source lines 166-174),
plus the audit field `suspicion_score_after` written after evaluation
(line 179); `none` until then. -/
structure VoteEvent where
  judge_hash : String
  model_a : String
  model_b : String
  battle_pair : String × String
  winner : String
  tstamp : ℚ
  prompt : String
  suspicion_score_after : Option ℚ
deriving DecidableEq

/-- Per-judge session state: the fields of `st.session_state` the engine
reads and writes (source lines 15-20). -/
structure JudgeState where
  judge_hash : String
  vote_history : List VoteEvent
  suspicion_score : ℚ
  status : Status
  triggered_rules : Finset String
deriving DecidableEq

/-- Initial session state (source lines 15-20): empty history, score 0.0,
status Normal, no triggered rules. -/
def initState (judge_hash : String) : JudgeState :=
  { judge_hash := judge_hash
    vote_history := []
    suspicion_score := 0
    status := Status.NORMAL
    triggered_rules := ∅ }

/-- Whether `pat` is an initial segment of `l`, on characters. -/
def charsStartWith : List Char → List Char → Bool
  | [], _ => true
  | _ :: _, [] => false
  | a :: as, b :: bs => a == b && charsStartWith as bs

/-- Whether `pat` occurs as a contiguous run inside `l`. -/
def charsHaveRun (pat : List Char) : List Char → Bool
  | [] => charsStartWith pat []
  | c :: rest => charsStartWith pat (c :: rest) || charsHaveRun pat rest

/-- Python `'tie' in w` (source line 74): the string "tie" occurs as a
substring of the winner label. -/
def containsTie (w : String) : Bool :=
  charsHaveRun "tie".toList w.toList

/-- Largest multiplicity of any element of the list: the embedding of
`value_counts().max()` (source lines 66-67); 0 on the empty list, where
the source short-circuits to False. -/
def maxMultiplicity {α : Type} [DecidableEq α] (l : List α) : ℕ :=
  (l.map (fun x => l.count x)).foldr max 0

/-- Fast-vote test on the column of timestamps, newest last: elapsed
time between the last two votes is below 3 seconds (source line 55). -/
def fastVoteTimes (ts : List ℚ) : Bool :=
  match ts.reverse with
  | tLast :: tPrev :: _ => decide (tLast - tPrev < 3)
  | _ => false

/-- Fast-vote signal of the history (source line 55). -/
def is_fast_vote (hist : List VoteEvent) : Bool :=
  fastVoteTimes (hist.map (fun e => e.tstamp))

/-- Strong-bias test on the winner column of the last-5 window (source
lines 58-63): the window holds exactly 5 winners, all equal to its first
entry, and that entry is a model identifier (not a tie). -/
def strongBiasWinners (winner_list : List String) : Bool :=
  if winner_list.length = 5 then
    match winner_list.head? with
    | some w0 =>
        decide (winner_list.count w0 = 5 ∧ (w0 = "model_a" ∨ w0 = "model_b"))
    | none => false
  else false

/-- Strong-bias signal: apply the window test to the winners of the last
5 events (`history_df.tail(5)`, source lines 58-63). -/
def has_strong_bias (hist : List VoteEvent) : Bool :=
  strongBiasWinners ((hist.drop (hist.length - 5)).map (fun e => e.winner))

/-- Repetitive-battle signal: some battle pair occurs more than 5 times
in the whole history (source lines 66-67). -/
def is_repetitive_battle (hist : List VoteEvent) : Bool :=
  decide (5 < maxMultiplicity (hist.map (fun e => e.battle_pair)))

/-- Count of distinct strings, the embedding of pandas `nunique`. -/
def nunique (l : List String) : ℕ :=
  l.dedup.length

/-- Prompt diversity: distinct prompts over total count, 1.0 on an empty
history (source line 70). -/
def prompt_diversity (hist : List VoteEvent) : ℚ :=
  if hist.length = 0 then 1
  else (nunique (hist.map (fun e => e.prompt)) : ℚ) / (hist.length : ℚ)

/-- Repetitive-prompt signal: diversity below 0.3 and more than 5 votes
(source line 71). -/
def is_repetitive_prompt (hist : List VoteEvent) : Bool :=
  decide (prompt_diversity hist < 3 / 10 ∧ 5 < hist.length)

/-- Count of winner labels containing "tie" (source line 74). -/
def tieCount (ws : List String) : ℕ :=
  (ws.filter containsTie).length

/-- Tie rate: fraction of votes whose winner label contains "tie"
(source line 74). -/
def tie_rate (hist : List VoteEvent) : ℚ :=
  (tieCount (hist.map (fun e => e.winner)) : ℚ) / (hist.length : ℚ)

/-- Excessive-ties signal: tie rate above 0.8 and more than 5 votes
(source line 75). -/
def has_excessive_ties (hist : List VoteEvent) : Bool :=
  decide (4 / 5 < tie_rate hist ∧ 5 < hist.length)

/-- The rule table of source lines 77-103, applied to the decayed score:
four combination rules each add their penalty and their name; the two
individual fallbacks fire only while the triggered set is still empty. -/
def applyRules (s0 : ℚ) (fast bias repBattle repPrompt excTies : Bool) :
    ℚ × Finset String :=
  let p1 := if fast && bias
    then (s0 + 4, insert "Fast & Biased" (∅ : Finset String))
    else (s0, (∅ : Finset String))
  let p2 := if bias && repBattle
    then (p1.1 + 3, insert "Biased & Repetitive Battles" p1.2) else p1
  let p3 := if fast && repPrompt
    then (p2.1 + 2, insert "Fast & Repetitive Prompts" p2.2) else p2
  let p4 := if fast && excTies
    then (p3.1 + 2, insert "Fast & Excessive Ties" p3.2) else p3
  let p5 := if bias = true ∧ p4.2 = ∅
    then (p4.1 + 1, insert "Strong Bias" p4.2) else p4
  let p6 := if fast = true ∧ p5.2 = ∅
    then (p5.1 + 1, insert "Fast Voting" p5.2) else p5
  p6

/-- Status classifier of source lines 109-114: 10 and above is FLAGGED,
5 to below 10 is Suspicious, below 5 is Normal. -/
def classify (score : ℚ) : Status :=
  if 10 ≤ score then Status.FLAGGED
  else if 5 ≤ score then Status.SUSPICIOUS
  else Status.NORMAL

/-- Decay then rule table on a given history and prior score: the score
and triggered-set computation of `update_suspicion_score`, source lines
49-103. -/
def evalHistory (hist : List VoteEvent) (score : ℚ) : ℚ × Finset String :=
  applyRules (score * (9 / 10)) (is_fast_vote hist) (has_strong_bias hist)
    (is_repetitive_battle hist) (is_repetitive_prompt hist)
    (has_excessive_ties hist)

/-- `update_suspicion_score` (source lines 40-114): skip when the history
holds fewer than 3 votes; otherwise decay, apply the rules, clamp at 0,
and reclassify. -/
def update_suspicion_score (st : JudgeState) : JudgeState :=
  if st.vote_history.length < 3 then st
  else
    let p := evalHistory st.vote_history st.suspicion_score
    let s := max 0 p.1
    { st with suspicion_score := s, triggered_rules := p.2, status := classify s }

/-- Overwrite the audit field of the last record of the history, the
embedding of the in-place mutation at source line 179. -/
def setLastScoreAfter : List VoteEvent → ℚ → List VoteEvent
  | [], _ => []
  | [e], q => [{ e with suspicion_score_after := some q }]
  | e :: e2 :: rest, q => e :: setLastScoreAfter (e2 :: rest) q

/-- The vote-processing core of `handle_vote` (source lines 175-179):
append the event, run the evaluation, persist the resulting score onto
the just-appended event.  This is the record_vote operation of the spec,
with the event fields caller-supplied. -/
def record_vote (st : JudgeState) (ev : VoteEvent) : JudgeState :=
  let st2 := update_suspicion_score
    { st with vote_history := st.vote_history ++ [ev] }
  { st2 with vote_history := setLastScoreAfter st2.vote_history st2.suspicion_score }

/-- Python `tuple(sorted((a, b)))` for two strings. -/
def sortedPair (a b : String) : String × String :=
  if a < b then (a, b) else (b, a)

/-- `handle_vote` (source lines 164-179): build the vote record with the
constant model identifiers and the canonical battle pair, then process
it.  The wall-clock reading and the current session prompt are inputs
from the environment. -/
def handle_vote (st : JudgeState) (winner_choice : String) (now : ℚ)
    (current_prompt : String) : JudgeState :=
  record_vote st
    { judge_hash := st.judge_hash
      model_a := "model_alpha"
      model_b := "model_beta"
      battle_pair := sortedPair "model_alpha" "model_beta"
      winner := winner_choice
      tstamp := now
      prompt := current_prompt
      suspicion_score_after := none }

/-- A judge state reached by a sequence of votes from a given state. -/
def runVotes (st : JudgeState) (evs : List VoteEvent) : JudgeState :=
  evs.foldl record_vote st

end LMArena

namespace LMArena

/-! ### Basic lemmas about the embedding -/

lemma setLastScoreAfter_length (l : List VoteEvent) (q : ℚ) :
    (setLastScoreAfter l q).length = l.length := by
  induction l with
  | nil => rfl
  | cons e rest ih =>
    cases rest with
    | nil => rfl
    | cons e2 rest2 => simpa [setLastScoreAfter] using ih

lemma setLastScoreAfter_map_battle (l : List VoteEvent) (q : ℚ) :
    (setLastScoreAfter l q).map (fun e => e.battle_pair) =
      l.map (fun e => e.battle_pair) := by
  induction l with
  | nil => rfl
  | cons e rest ih =>
    cases rest with
    | nil => rfl
    | cons e2 rest2 => simpa [setLastScoreAfter] using ih

lemma setLastScoreAfter_getLast (l : List VoteEvent) (e : VoteEvent) (q : ℚ) :
    (setLastScoreAfter (l ++ [e]) q).getLast? =
      some { e with suspicion_score_after := some q } := by
  induction l with
  | nil => rfl
  | cons a rest ih =>
    cases hshape : setLastScoreAfter (rest ++ [e]) q with
    | nil =>
        have hlen := setLastScoreAfter_length (rest ++ [e]) q
        rw [hshape] at hlen
        simp at hlen
    | cons x xs =>
        have hstep : setLastScoreAfter ((a :: rest) ++ [e]) q
            = a :: setLastScoreAfter (rest ++ [e]) q := by
          cases rest <;> rfl
        rw [hstep, hshape, List.getLast?_cons_cons, ← hshape, ih]

lemma record_vote_score (st : JudgeState) (ev : VoteEvent) :
    (record_vote st ev).suspicion_score =
      (update_suspicion_score
        { st with vote_history := st.vote_history ++ [ev] }).suspicion_score := rfl

lemma record_vote_status (st : JudgeState) (ev : VoteEvent) :
    (record_vote st ev).status =
      (update_suspicion_score
        { st with vote_history := st.vote_history ++ [ev] }).status := rfl

lemma record_vote_triggered (st : JudgeState) (ev : VoteEvent) :
    (record_vote st ev).triggered_rules =
      (update_suspicion_score
        { st with vote_history := st.vote_history ++ [ev] }).triggered_rules := rfl

lemma update_history (st : JudgeState) :
    (update_suspicion_score st).vote_history = st.vote_history := by
  unfold update_suspicion_score
  split <;> rfl

lemma update_skip (st : JudgeState) (h : st.vote_history.length < 3) :
    update_suspicion_score st = st := by
  simp [update_suspicion_score, h]

lemma update_eval_score (st : JudgeState) (h : ¬ st.vote_history.length < 3) :
    (update_suspicion_score st).suspicion_score =
      max 0 (evalHistory st.vote_history st.suspicion_score).1 := by
  simp [update_suspicion_score, h]

lemma update_eval_triggered (st : JudgeState) (h : ¬ st.vote_history.length < 3) :
    (update_suspicion_score st).triggered_rules =
      (evalHistory st.vote_history st.suspicion_score).2 := by
  simp [update_suspicion_score, h]

lemma update_eval_status (st : JudgeState) (h : ¬ st.vote_history.length < 3) :
    (update_suspicion_score st).status =
      classify (max 0 (evalHistory st.vote_history st.suspicion_score).1) := by
  simp [update_suspicion_score, h]

lemma applyRules_snd_empty {s : ℚ} {f b rb rp et : Bool}
    (h : (applyRules s f b rb rp et).2 = ∅) :
    (applyRules s f b rb rp et).1 = s := by
  cases f <;> cases b <;> cases rb <;> cases rp <;> cases et <;>
    simp [applyRules] at h ⊢

lemma applyRules_no_signals (s : ℚ) (rb rp et : Bool) :
    applyRules s false false rb rp et = (s, ∅) := by
  simp [applyRules]

lemma applyRules_fast_bias (s : ℚ) :
    applyRules s true true false false false = (s + 4, {"Fast & Biased"}) := by
  simp [applyRules]

lemma le_foldr_max {a : ℕ} {L : List ℕ} (h : a ∈ L) : a ≤ L.foldr max 0 := by
  induction L with
  | nil => cases h
  | cons b t ih =>
    rcases List.mem_cons.mp h with rfl | hmem
    · exact le_max_left _ _
    · exact le_trans (ih hmem) (le_max_right _ _)

lemma count_le_maxMultiplicity {α : Type} [DecidableEq α] {x : α} {l : List α}
    (h : x ∈ l) : l.count x ≤ maxMultiplicity l :=
  le_foldr_max (List.mem_map_of_mem _ h)

lemma replicate_five (a : String) : List.replicate 5 a = [a, a, a, a, a] := rfl

lemma strongBiasWinners_true_iff (l : List String) :
    strongBiasWinners l = true ↔
      l.length = 5 ∧
        ∃ w, l = [w, w, w, w, w] ∧ (w = "model_a" ∨ w = "model_b") := by
  unfold strongBiasWinners
  by_cases h5 : l.length = 5
  · cases l with
    | nil => simp at h5
    | cons a t =>
      rw [if_pos h5]
      simp only [List.head?_cons, decide_eq_true_iff]
      constructor
      · rintro ⟨hcount, hw⟩
        refine ⟨h5, a, ?_, hw⟩
        have hcl : (a :: t).count a = (a :: t).length := by rw [hcount, h5]
        have hall := List.count_eq_length.mp hcl
        have hrep : a :: t = List.replicate 5 a := by
          rw [List.eq_replicate_iff]
          exact ⟨h5, fun b hb => (hall b hb).symm⟩
        rw [hrep, replicate_five]
      · rintro ⟨-, w, hl, hw⟩
        have ha : a = w := by
          have := congrArg List.head? hl
          simpa using this
        subst ha
        have hrep : a :: t = List.replicate 5 a := by rw [hl, replicate_five]
        rw [hrep]
        refine ⟨?_, hw⟩
        simp
  · rw [if_neg h5]
    constructor
    · intro h; exact absurd h (by decide)
    · rintro ⟨h, -⟩; exact absurd h h5

end LMArena

namespace LMArena

lemma record_vote_preserves_classify {st : JudgeState} (ev : VoteEvent)
    (h : st.status = classify st.suspicion_score) :
    (record_vote st ev).status = classify (record_vote st ev).suspicion_score := by
  rw [record_vote_status, record_vote_score]
  by_cases hlen :
      (JudgeState.mk st.judge_hash (st.vote_history ++ [ev]) st.suspicion_score
        st.status st.triggered_rules).vote_history.length < 3
  · rw [update_skip _ hlen]
    exact h
  · rw [update_eval_status _ hlen, update_eval_score _ hlen]

lemma runVotes_classify {st : JudgeState}
    (h : st.status = classify st.suspicion_score) (evs : List VoteEvent) :
    (runVotes st evs).status = classify (runVotes st evs).suspicion_score := by
  induction evs generalizing st with
  | nil => exact h
  | cons e rest ih =>
    exact ih (record_vote_preserves_classify e h)

/-- C1: for every judge and every call to record_vote, immediately after
the call the stored status equals the classifier image of the stored
score; status and score never disagree. -/
theorem C1_status_is_classify_of_score (judge : String)
    (evs : List VoteEvent) (ev : VoteEvent) :
    (record_vote (runVotes (initState judge) evs) ev).status =
      classify (record_vote (runVotes (initState judge) evs) ev).suspicion_score := by
  apply record_vote_preserves_classify
  apply runVotes_classify
  show Status.NORMAL = classify 0
  with_unfolding_all decide

/-- C5: when the history holds fewer than 3 events at evaluation time
(including the just-appended one), record_vote leaves score, status and
triggered_rules unchanged; only the event append occurs. -/
theorem C5_short_history_no_op (st : JudgeState) (ev : VoteEvent)
    (h : st.vote_history.length + 1 < 3) :
    (record_vote st ev).suspicion_score = st.suspicion_score ∧
    (record_vote st ev).status = st.status ∧
    (record_vote st ev).triggered_rules = st.triggered_rules ∧
    (record_vote st ev).vote_history.length = st.vote_history.length + 1 := by
  have hlen :
      (JudgeState.mk st.judge_hash (st.vote_history ++ [ev]) st.suspicion_score
        st.status st.triggered_rules).vote_history.length < 3 := by
    simpa using h
  refine ⟨?_, ?_, ?_, ?_⟩
  · rw [record_vote_score, update_skip _ hlen]
  · rw [record_vote_status, update_skip _ hlen]
  · rw [record_vote_triggered, update_skip _ hlen]
  · show (setLastScoreAfter _ _).length = _
    rw [setLastScoreAfter_length, update_history]
    simp

theorem C5_short_history_no_op_witness :
    (initState "j").vote_history.length + 1 < 3 ∧
    (record_vote (initState "j")
        { judge_hash := "j", model_a := "model_alpha", model_b := "model_beta",
          battle_pair := ("model_alpha", "model_beta"), winner := "model_a",
          tstamp := 0, prompt := "p", suspicion_score_after := none
        }).suspicion_score = (initState "j").suspicion_score :=
  ⟨by decide,
    (C5_short_history_no_op (initState "j") _ (by decide)).1⟩

/-- C8: the suspicion_score_after field persisted onto the just-appended
event equals the score stored in the judge state by that same call to
record_vote. -/
theorem C8_audit_field_roundtrip (st : JudgeState) (ev : VoteEvent) :
    (record_vote st ev).vote_history.getLast? =
      some { ev with
        suspicion_score_after := some (record_vote st ev).suspicion_score } := by
  show (setLastScoreAfter
      (update_suspicion_score
        { st with vote_history := st.vote_history ++ [ev] }).vote_history _).getLast? = _
  rw [update_history]
  exact setLastScoreAfter_getLast st.vote_history ev _

/-- C9: the score starts at 0.0 and stays non-negative: from a
non-negative prior score, decay, the never-negative penalties and the
final clamp keep the score non-negative after record_vote. -/
theorem C9_score_nonneg (judge : String) (st : JudgeState) (ev : VoteEvent) :
    (initState judge).suspicion_score = 0 ∧
    (0 ≤ st.suspicion_score → 0 ≤ (record_vote st ev).suspicion_score) := by
  refine ⟨rfl, fun hpos => ?_⟩
  rw [record_vote_score]
  by_cases hlen :
      (JudgeState.mk st.judge_hash (st.vote_history ++ [ev]) st.suspicion_score
        st.status st.triggered_rules).vote_history.length < 3
  · rw [update_skip _ hlen]
    exact hpos
  · rw [update_eval_score _ hlen]
    exact le_max_left _ _

theorem C9_score_nonneg_witness :
    (initState "j").suspicion_score = 0 ∧
    0 ≤ (record_vote (initState "j")
      { judge_hash := "j", model_a := "model_alpha", model_b := "model_beta",
        battle_pair := ("model_alpha", "model_beta"), winner := "model_a",
        tstamp := 0, prompt := "p", suspicion_score_after := none
      }).suspicion_score :=
  ⟨(C9_score_nonneg "j" (initState "j")
      { judge_hash := "j", model_a := "model_alpha", model_b := "model_beta",
        battle_pair := ("model_alpha", "model_beta"), winner := "model_a",
        tstamp := 0, prompt := "p", suspicion_score_after := none }).1,
   (C9_score_nonneg "j" (initState "j")
      { judge_hash := "j", model_a := "model_alpha", model_b := "model_beta",
        battle_pair := ("model_alpha", "model_beta"), winner := "model_a",
        tstamp := 0, prompt := "p", suspicion_score_after := none }).2
      le_rfl⟩

end LMArena

namespace LMArena

/-- C2: whenever the history at evaluation time holds at least 3 votes
(at least 2 before the append), the prior score is non-negative and no
rule fires, the resulting score is exactly 0.9 times the prior score:
decay is applied exactly once, before any penalty. -/
theorem C2_pure_decay_when_no_rule (st : JudgeState) (ev : VoteEvent)
    (hlen : 2 ≤ st.vote_history.length)
    (hpos : 0 ≤ st.suspicion_score)
    (hnone : (record_vote st ev).triggered_rules = ∅) :
    (record_vote st ev).suspicion_score = 9 / 10 * st.suspicion_score := by
  have h3 : ¬ (JudgeState.mk st.judge_hash (st.vote_history ++ [ev])
      st.suspicion_score st.status st.triggered_rules).vote_history.length < 3 := by
    simp only [List.length_append, List.length_cons, List.length_nil]
    omega
  rw [record_vote_triggered, update_eval_triggered _ h3] at hnone
  rw [record_vote_score, update_eval_score _ h3]
  have hfst := applyRules_snd_empty (s := st.suspicion_score * (9 / 10)) hnone
  show max 0 (evalHistory (st.vote_history ++ [ev]) st.suspicion_score).1 = _
  unfold evalHistory at hfst ⊢
  rw [hfst]
  rw [max_eq_right (mul_nonneg hpos (by norm_num))]
  ring

theorem C2_pure_decay_when_no_rule_witness :
    2 ≤ (JudgeState.mk "j"
        [ { judge_hash := "j", model_a := "a", model_b := "b",
            battle_pair := ("a", "b"), winner := "model_a",
            tstamp := 0, prompt := "p1", suspicion_score_after := none },
          { judge_hash := "j", model_a := "a", model_b := "b",
            battle_pair := ("a", "b"), winner := "model_b",
            tstamp := 10, prompt := "p2", suspicion_score_after := none } ]
        1 Status.NORMAL ∅).vote_history.length ∧
    (record_vote (JudgeState.mk "j"
        [ { judge_hash := "j", model_a := "a", model_b := "b",
            battle_pair := ("a", "b"), winner := "model_a",
            tstamp := 0, prompt := "p1", suspicion_score_after := none },
          { judge_hash := "j", model_a := "a", model_b := "b",
            battle_pair := ("a", "b"), winner := "model_b",
            tstamp := 10, prompt := "p2", suspicion_score_after := none } ]
        1 Status.NORMAL ∅)
      { judge_hash := "j", model_a := "a", model_b := "b",
        battle_pair := ("a", "b"), winner := "tie",
        tstamp := 20, prompt := "p3", suspicion_score_after := none
      }).suspicion_score = 9 / 10 * 1 :=
  ⟨by decide,
    C2_pure_decay_when_no_rule _ _ (by decide)
      (by with_unfolding_all decide) (by with_unfolding_all decide)⟩

lemma applyRules_snd_indep (s s' : ℚ) (f b rb rp et : Bool) :
    (applyRules s f b rb rp et).2 = (applyRules s' f b rb rp et).2 := by
  cases f <;> cases b <;> cases rb <;> cases rp <;> cases et <;> simp [applyRules]

lemma applyRules_fallback_discipline (s : ℚ) (f b rb rp et : Bool) :
    (("Fast & Biased" ∈ (applyRules s f b rb rp et).2 ∨
      "Biased & Repetitive Battles" ∈ (applyRules s f b rb rp et).2 ∨
      "Fast & Repetitive Prompts" ∈ (applyRules s f b rb rp et).2 ∨
      "Fast & Excessive Ties" ∈ (applyRules s f b rb rp et).2) →
      ("Strong Bias" ∉ (applyRules s f b rb rp et).2 ∧
       "Fast Voting" ∉ (applyRules s f b rb rp et).2)) ∧
    ¬ ("Strong Bias" ∈ (applyRules s f b rb rp et).2 ∧
       "Fast Voting" ∈ (applyRules s f b rb rp et).2) := by
  rw [applyRules_snd_indep s 0 f b rb rp et]
  cases f <;> cases b <;> cases rb <;> cases rp <;> cases et <;>
    with_unfolding_all decide

/-- C3: an individual fallback rule fires only if no rule has fired
earlier in the evaluation: on any evaluation, if a combination rule name
is in the triggered set then neither fallback name is, and the two
fallback names never appear together. -/
theorem C3_combination_rules_dominate (hist : List VoteEvent) (score : ℚ) :
    (("Fast & Biased" ∈ (evalHistory hist score).2 ∨
      "Biased & Repetitive Battles" ∈ (evalHistory hist score).2 ∨
      "Fast & Repetitive Prompts" ∈ (evalHistory hist score).2 ∨
      "Fast & Excessive Ties" ∈ (evalHistory hist score).2) →
      ("Strong Bias" ∉ (evalHistory hist score).2 ∧
       "Fast Voting" ∉ (evalHistory hist score).2)) ∧
    ¬ ("Strong Bias" ∈ (evalHistory hist score).2 ∧
       "Fast Voting" ∈ (evalHistory hist score).2) :=
  applyRules_fallback_discipline (score * (9 / 10)) (is_fast_vote hist)
    (has_strong_bias hist) (is_repetitive_battle hist)
    (is_repetitive_prompt hist) (has_excessive_ties hist)

end LMArena

namespace LMArena

/-- Concrete vote record builder used by witness instantiations. -/
def mkVote (w : String) (t : ℚ) (p : String) (bp : String × String) : VoteEvent :=
  { judge_hash := "j", model_a := "model_alpha", model_b := "model_beta",
    battle_pair := bp, winner := w, tstamp := t, prompt := p,
    suspicion_score_after := none }

/-- A history whose 6th vote is both fast and biased. -/
def fastBiasedHist : List VoteEvent :=
  [ mkVote "model_a" 0 "p" ("a", "b"), mkVote "model_a" 10 "p" ("a", "b"),
    mkVote "model_a" 20 "p" ("a", "b"), mkVote "model_a" 30 "p" ("a", "b"),
    mkVote "model_a" 40 "p" ("a", "b"), mkVote "model_a" 41 "p" ("a", "b") ]

theorem C3_combination_rules_dominate_witness :
    ("Strong Bias" ∉ (evalHistory fastBiasedHist 0).2 ∧
     "Fast Voting" ∉ (evalHistory fastBiasedHist 0).2) ∧
    ¬ ("Strong Bias" ∈ (evalHistory fastBiasedHist 0).2 ∧
       "Fast Voting" ∈ (evalHistory fastBiasedHist 0).2) :=
  ⟨(C3_combination_rules_dominate fastBiasedHist 0).1
      (Or.inl (by with_unfolding_all decide)),
   (C3_combination_rules_dominate fastBiasedHist 0).2⟩

/-- C6: the strong-bias signal is false on histories of fewer than 5
events; with at least 5 events it is true exactly when the last 5 winners
are identical and that winner is a model identifier; five unanimous ties
never make it true. -/
theorem C6_strong_bias_characterisation (hist : List VoteEvent) :
    (hist.length < 5 → has_strong_bias hist = false) ∧
    (5 ≤ hist.length →
      (has_strong_bias hist = true ↔
        ∃ w, (hist.drop (hist.length - 5)).map (fun e => e.winner)
              = [w, w, w, w, w] ∧ (w = "model_a" ∨ w = "model_b"))) ∧
    ((hist.drop (hist.length - 5)).map (fun e => e.winner)
        = ["tie", "tie", "tie", "tie", "tie"] →
      has_strong_bias hist = false) := by
  have hlen : ((hist.drop (hist.length - 5)).map (fun e => e.winner)).length
      = hist.length - (hist.length - 5) := by
    rw [List.length_map, List.length_drop]
  refine ⟨?_, ?_, ?_⟩
  · intro h5
    rw [← Bool.not_eq_true]
    intro htrue
    have hc := (strongBiasWinners_true_iff _).mp htrue
    have hc1 := hc.1
    rw [hlen] at hc1
    omega
  · intro h5
    have hws5 : ((hist.drop (hist.length - 5)).map (fun e => e.winner)).length
        = 5 := by rw [hlen]; omega
    unfold has_strong_bias
    rw [strongBiasWinners_true_iff]
    exact ⟨fun h => h.2, fun h => ⟨hws5, h⟩⟩
  · intro hties
    rw [← Bool.not_eq_true]
    intro htrue
    obtain ⟨-, w, hw, hmod⟩ := (strongBiasWinners_true_iff _).mp htrue
    have heq : ["tie", "tie", "tie", "tie", "tie"] = [w, w, w, w, w] :=
      hties.symm.trans hw
    have hwt : w = "tie" := by
      injection heq with h1 _
      exact h1.symm
    rcases hmod with h | h <;> rw [hwt] at h <;> exact absurd h (by decide)

/-- A history of five identical model_a votes. -/
def fiveModelAHist : List VoteEvent :=
  [ mkVote "model_a" 0 "p" ("a", "b"), mkVote "model_a" 10 "p" ("a", "b"),
    mkVote "model_a" 20 "p" ("a", "b"), mkVote "model_a" 30 "p" ("a", "b"),
    mkVote "model_a" 40 "p" ("a", "b") ]

theorem C6_strong_bias_characterisation_witness :
    has_strong_bias [mkVote "model_a" 0 "p" ("a", "b")] = false ∧
    has_strong_bias fiveModelAHist = true ∧
    has_strong_bias (fiveModelAHist.map
      (fun e => { e with winner := "tie" })) = false :=
  ⟨(C6_strong_bias_characterisation _).1 (by decide),
   ((C6_strong_bias_characterisation fiveModelAHist).2.1 (by decide)).mpr
      ⟨"model_a", by with_unfolding_all decide, Or.inl rfl⟩,
   (C6_strong_bias_characterisation _).2.2 (by with_unfolding_all decide)⟩

end LMArena

namespace LMArena

lemma lt_maxMultiplicity_of_all_eq {α : Type} [DecidableEq α] {x : α}
    {l : List α} (hall : ∀ y ∈ l, y = x) (hlen : 5 < l.length) :
    5 < maxMultiplicity l := by
  have hmem : x ∈ l := by
    cases l with
    | nil => simp at hlen
    | cons a t =>
        have := hall a (List.mem_cons_self a t)
        rw [← this]
        exact List.mem_cons_self a t
  have hcount : l.count x = l.length :=
    List.count_eq_length.mpr (fun b hb => (hall b hb).symm)
  calc 5 < l.length := hlen
    _ = l.count x := hcount.symm
    _ ≤ _ := count_le_maxMultiplicity hmem

lemma record_vote_eval_triggered (st : JudgeState) (ev : VoteEvent)
    (h3 : ¬ (st.vote_history ++ [ev]).length < 3) :
    (record_vote st ev).triggered_rules =
      (evalHistory (st.vote_history ++ [ev]) st.suspicion_score).2 := by
  rw [record_vote_triggered, update_eval_triggered]
  exact h3

lemma record_vote_eval_score (st : JudgeState) (ev : VoteEvent)
    (h3 : ¬ (st.vote_history ++ [ev]).length < 3) :
    (record_vote st ev).suspicion_score =
      max 0 (evalHistory (st.vote_history ++ [ev]) st.suspicion_score).1 := by
  rw [record_vote_score, update_eval_score]
  exact h3

/-- C7: on a 6th vote where all six votes share one battle pair, winners
alternate between the two models and all gaps exceed 3 seconds, the
repetitive-battle signal is true, strong-bias and fast-vote are false, no
rule fires, and the score changes only by the 0.9 decay factor. -/
theorem C7_repetitive_battle_alone_is_silent (st : JudgeState)
    (e1 e2 e3 e4 e5 ev : VoteEvent)
    (hhist : st.vote_history = [e1, e2, e3, e4, e5])
    (hb2 : e2.battle_pair = e1.battle_pair) (hb3 : e3.battle_pair = e1.battle_pair)
    (hb4 : e4.battle_pair = e1.battle_pair) (hb5 : e5.battle_pair = e1.battle_pair)
    (hbev : ev.battle_pair = e1.battle_pair)
    (_hw1 : e1.winner = "model_a") (hw2 : e2.winner = "model_b")
    (hw3 : e3.winner = "model_a") (hw4 : e4.winner = "model_b")
    (hw5 : e5.winner = "model_a") (hwev : ev.winner = "model_b")
    (_hg1 : 3 < e2.tstamp - e1.tstamp) (_hg2 : 3 < e3.tstamp - e2.tstamp)
    (_hg3 : 3 < e4.tstamp - e3.tstamp) (_hg4 : 3 < e5.tstamp - e4.tstamp)
    (hgev : 3 < ev.tstamp - e5.tstamp)
    (hpos : 0 ≤ st.suspicion_score) :
    is_repetitive_battle (st.vote_history ++ [ev]) = true ∧
    has_strong_bias (st.vote_history ++ [ev]) = false ∧
    is_fast_vote (st.vote_history ++ [ev]) = false ∧
    (record_vote st ev).triggered_rules = ∅ ∧
    (record_vote st ev).suspicion_score = 9 / 10 * st.suspicion_score := by
  have h3 : ¬ (st.vote_history ++ [ev]).length < 3 := by
    rw [hhist]; simp
  have hrb : is_repetitive_battle (st.vote_history ++ [ev]) = true := by
    rw [hhist]
    apply decide_eq_true
    apply lt_maxMultiplicity_of_all_eq (x := e1.battle_pair)
    · intro y hy
      simp only [List.map_append, List.map_cons, List.map_nil, List.mem_append,
        List.mem_cons, List.not_mem_nil, or_false] at hy
      rcases hy with (rfl | rfl | rfl | rfl | rfl) | rfl
      exacts [rfl, hb2, hb3, hb4, hb5, hbev]
    · simp
  have hsb : has_strong_bias (st.vote_history ++ [ev]) = false := by
    rw [hhist]
    show strongBiasWinners
      [e2.winner, e3.winner, e4.winner, e5.winner, ev.winner] = false
    rw [hw2, hw3, hw4, hw5, hwev]
    with_unfolding_all decide
  have hfv : is_fast_vote (st.vote_history ++ [ev]) = false := by
    rw [hhist]
    show decide (ev.tstamp - e5.tstamp < 3) = false
    exact decide_eq_false (by linarith)
  have heval : evalHistory (st.vote_history ++ [ev]) st.suspicion_score =
      (st.suspicion_score * (9 / 10), ∅) := by
    unfold evalHistory
    rw [hfv, hsb, applyRules_no_signals]
  refine ⟨hrb, hsb, hfv, ?_, ?_⟩
  · rw [record_vote_eval_triggered st ev h3, heval]
  · rw [record_vote_eval_score st ev h3, heval]
    show max 0 (st.suspicion_score * (9 / 10)) = _
    rw [max_eq_right (mul_nonneg hpos (by norm_num))]
    ring

theorem C7_repetitive_battle_alone_is_silent_witness :
    (record_vote (JudgeState.mk "j"
        [ mkVote "model_a" 0 "p" ("a", "b"), mkVote "model_b" 10 "p" ("a", "b"),
          mkVote "model_a" 20 "p" ("a", "b"), mkVote "model_b" 30 "p" ("a", "b"),
          mkVote "model_a" 40 "p" ("a", "b") ]
        1 Status.NORMAL ∅)
      (mkVote "model_b" 50 "p" ("a", "b"))).triggered_rules = ∅ :=
  (C7_repetitive_battle_alone_is_silent
      (JudgeState.mk "j"
        [ mkVote "model_a" 0 "p" ("a", "b"), mkVote "model_b" 10 "p" ("a", "b"),
          mkVote "model_a" 20 "p" ("a", "b"), mkVote "model_b" 30 "p" ("a", "b"),
          mkVote "model_a" 40 "p" ("a", "b") ]
        1 Status.NORMAL ∅)
      (mkVote "model_a" 0 "p" ("a", "b")) (mkVote "model_b" 10 "p" ("a", "b"))
      (mkVote "model_a" 20 "p" ("a", "b")) (mkVote "model_b" 30 "p" ("a", "b"))
      (mkVote "model_a" 40 "p" ("a", "b")) (mkVote "model_b" 50 "p" ("a", "b"))
      rfl rfl rfl rfl rfl rfl rfl rfl rfl rfl rfl rfl
      (by with_unfolding_all decide) (by with_unfolding_all decide)
      (by with_unfolding_all decide) (by with_unfolding_all decide)
      (by with_unfolding_all decide) (by decide)).2.2.2.1

end LMArena

namespace LMArena

/-- The judge state after five handle_vote calls for model_a at times
0, 10, 20, 30, 40, with an unchanging session prompt. -/
def c4Seeded : JudgeState :=
  handle_vote (handle_vote (handle_vote (handle_vote (handle_vote
    (initState "j") "model_a" 0 "p") "model_a" 10 "p") "model_a" 20 "p")
    "model_a" 30 "p") "model_a" 40 "p"

/-- The same judge after a sixth handle_vote for model_a at time 41. -/
def c4Final : JudgeState := handle_vote c4Seeded "model_a" 41 "p"

/-- C4 counterexample: a judge seeded through the public vote path with
5 votes for model_a at gaps of 10 seconds, then a 6th vote for model_a
1 second later, does NOT end with triggered_rules = singleton
Fast & Biased, nor with score 0.9 * prior + 4: the shared battle pair
and prompt make two further combination rules fire. -/
theorem C4_fast_biased_counterexample :
    (c4Seeded.vote_history.map (fun e => e.winner)
        = ["model_a", "model_a", "model_a", "model_a", "model_a"]) ∧
    (c4Seeded.vote_history.map (fun e => e.tstamp) = [0, 10, 20, 30, 40]) ∧
    c4Final.triggered_rules ≠ {"Fast & Biased"} ∧
    c4Final.suspicion_score ≠ 9 / 10 * c4Seeded.suspicion_score + 4 ∧
    c4Final.triggered_rules =
      {"Fast & Biased", "Biased & Repetitive Battles",
       "Fast & Repetitive Prompts"} ∧
    c4Final.suspicion_score = 9 / 10 * c4Seeded.suspicion_score + 4 + 3 + 2 := by
  with_unfolding_all decide

/-- C4 as amended: a judge seeded with 5 prior votes for model_a each at
least 3 seconds apart, followed by a 6th vote for model_a under 3 seconds
after the 5th, where moreover no battle pair occurs more than 5 times in
the resulting history and the votes carry at least 2 distinct prompts,
ends the 6th evaluation with triggered_rules exactly the singleton
Fast & Biased and score exactly 0.9 * prior + 4. -/
theorem C4_fast_biased_amended (st : JudgeState)
    (e1 e2 e3 e4 e5 ev : VoteEvent)
    (hhist : st.vote_history = [e1, e2, e3, e4, e5])
    (hw1 : e1.winner = "model_a") (hw2 : e2.winner = "model_a")
    (hw3 : e3.winner = "model_a") (hw4 : e4.winner = "model_a")
    (hw5 : e5.winner = "model_a") (hwev : ev.winner = "model_a")
    (_hg1 : 3 ≤ e2.tstamp - e1.tstamp) (_hg2 : 3 ≤ e3.tstamp - e2.tstamp)
    (_hg3 : 3 ≤ e4.tstamp - e3.tstamp) (_hg4 : 3 ≤ e5.tstamp - e4.tstamp)
    (hfast : ev.tstamp - e5.tstamp < 3)
    (hbattle : maxMultiplicity ((st.vote_history ++ [ev]).map
        (fun e => e.battle_pair)) ≤ 5)
    (hprompt : 2 ≤ nunique ((st.vote_history ++ [ev]).map (fun e => e.prompt)))
    (hpos : 0 ≤ st.suspicion_score) :
    (record_vote st ev).triggered_rules = {"Fast & Biased"} ∧
    (record_vote st ev).suspicion_score = 9 / 10 * st.suspicion_score + 4 := by
  have h3 : ¬ (st.vote_history ++ [ev]).length < 3 := by
    rw [hhist]; simp
  have hfv : is_fast_vote (st.vote_history ++ [ev]) = true := by
    rw [hhist]
    show decide (ev.tstamp - e5.tstamp < 3) = true
    exact decide_eq_true hfast
  have hsb : has_strong_bias (st.vote_history ++ [ev]) = true := by
    rw [hhist]
    show strongBiasWinners
      [e2.winner, e3.winner, e4.winner, e5.winner, ev.winner] = true
    rw [hw2, hw3, hw4, hw5, hwev]
    with_unfolding_all decide
  have hrb : is_repetitive_battle (st.vote_history ++ [ev]) = false := by
    apply decide_eq_false
    exact not_lt.mpr hbattle
  have hlen6 : (st.vote_history ++ [ev]).length = 6 := by rw [hhist]; rfl
  have hrp : is_repetitive_prompt (st.vote_history ++ [ev]) = false := by
    apply decide_eq_false
    rintro ⟨hdiv, -⟩
    rw [prompt_diversity, if_neg (by rw [hlen6]; norm_num), hlen6] at hdiv
    have h2 : (2 : ℚ) ≤
        (nunique ((st.vote_history ++ [ev]).map (fun e => e.prompt)) : ℚ) := by
      exact_mod_cast hprompt
    rw [div_lt_iff₀ (by norm_num : (0:ℚ) < ((6:ℕ):ℚ))] at hdiv
    have h6 : ((6:ℕ):ℚ) = 6 := by norm_num
    rw [h6] at hdiv
    linarith
  have het : has_excessive_ties (st.vote_history ++ [ev]) = false := by
    apply decide_eq_false
    rintro ⟨hrate, -⟩
    have htc : tieCount ((st.vote_history ++ [ev]).map (fun e => e.winner)) = 0 := by
      rw [hhist]
      show tieCount [e1.winner, e2.winner, e3.winner, e4.winner,
        e5.winner, ev.winner] = 0
      rw [hw1, hw2, hw3, hw4, hw5, hwev]
      with_unfolding_all decide
    rw [tie_rate, htc, hlen6] at hrate
    norm_num at hrate
  have heval : evalHistory (st.vote_history ++ [ev]) st.suspicion_score =
      (st.suspicion_score * (9 / 10) + 4, {"Fast & Biased"}) := by
    unfold evalHistory
    rw [hfv, hsb, hrb, hrp, het, applyRules_fast_bias]
  constructor
  · rw [record_vote_eval_triggered st ev h3, heval]
  · rw [record_vote_eval_score st ev h3, heval]
    show max 0 (st.suspicion_score * (9 / 10) + 4) = _
    have : (0:ℚ) ≤ st.suspicion_score * (9 / 10) + 4 := by
      have := mul_nonneg hpos (by norm_num : (0:ℚ) ≤ 9 / 10)
      linarith
    rw [max_eq_right this]
    ring

theorem C4_fast_biased_amended_witness :
    (record_vote (JudgeState.mk "j"
        [ mkVote "model_a" 0 "p1" ("a", "b"), mkVote "model_a" 10 "p2" ("c", "d"),
          mkVote "model_a" 20 "p1" ("e", "f"), mkVote "model_a" 30 "p2" ("g", "h"),
          mkVote "model_a" 40 "p1" ("i", "k") ]
        1 Status.NORMAL ∅)
      (mkVote "model_a" 41 "p2" ("m", "n"))).triggered_rules
        = {"Fast & Biased"} :=
  (C4_fast_biased_amended
      (JudgeState.mk "j"
        [ mkVote "model_a" 0 "p1" ("a", "b"), mkVote "model_a" 10 "p2" ("c", "d"),
          mkVote "model_a" 20 "p1" ("e", "f"), mkVote "model_a" 30 "p2" ("g", "h"),
          mkVote "model_a" 40 "p1" ("i", "k") ]
        1 Status.NORMAL ∅)
      (mkVote "model_a" 0 "p1" ("a", "b")) (mkVote "model_a" 10 "p2" ("c", "d"))
      (mkVote "model_a" 20 "p1" ("e", "f")) (mkVote "model_a" 30 "p2" ("g", "h"))
      (mkVote "model_a" 40 "p1" ("i", "k")) (mkVote "model_a" 41 "p2" ("m", "n"))
      rfl rfl rfl rfl rfl rfl rfl
      (by with_unfolding_all decide) (by with_unfolding_all decide)
      (by with_unfolding_all decide) (by with_unfolding_all decide)
      (by with_unfolding_all decide) (by with_unfolding_all decide)
      (by with_unfolding_all decide) (by decide)).1

end LMArena

namespace LMArena

lemma sortedPair_alpha_beta :
    sortedPair "model_alpha" "model_beta" = ("model_alpha", "model_beta") := by
  with_unfolding_all decide

lemma record_vote_history (st : JudgeState) (ev : VoteEvent) :
    (record_vote st ev).vote_history =
      setLastScoreAfter (st.vote_history ++ [ev])
        (record_vote st ev).suspicion_score := by
  show setLastScoreAfter
      (update_suspicion_score
        { st with vote_history := st.vote_history ++ [ev] }).vote_history _ = _
  rw [update_history, record_vote_score]

lemma handle_vote_const_battle (st : JudgeState) (w : String) (t : ℚ) (p : String)
    (h : ∀ e ∈ st.vote_history, e.battle_pair = ("model_alpha", "model_beta")) :
    ∀ e ∈ (handle_vote st w t p).vote_history,
      e.battle_pair = ("model_alpha", "model_beta") := by
  intro e he
  have hmem := List.mem_map_of_mem (fun e => e.battle_pair) he
  rw [show (handle_vote st w t p).vote_history
        = setLastScoreAfter (st.vote_history ++
            [{ judge_hash := st.judge_hash, model_a := "model_alpha",
               model_b := "model_beta",
               battle_pair := sortedPair "model_alpha" "model_beta",
               winner := w, tstamp := t, prompt := p,
               suspicion_score_after := none }])
            (handle_vote st w t p).suspicion_score
      from record_vote_history st _,
    setLastScoreAfter_map_battle, List.map_append] at hmem
  rcases List.mem_append.mp hmem with hm | hm
  · obtain ⟨x, hx, hxe⟩ := List.mem_map.mp hm
    have hb := h x hx
    rw [hxe] at hb
    exact hb
  · simp only [List.map_cons, List.map_nil, List.mem_cons,
      List.not_mem_nil, or_false] at hm
    rw [hm, sortedPair_alpha_beta]

lemma foldl_handle_vote_const_battle (votes : List (String × ℚ × String))
    (st : JudgeState)
    (h : ∀ e ∈ st.vote_history, e.battle_pair = ("model_alpha", "model_beta")) :
    ∀ e ∈ (votes.foldl (fun s v => handle_vote s v.1 v.2.1 v.2.2)
        st).vote_history,
      e.battle_pair = ("model_alpha", "model_beta") := by
  induction votes generalizing st with
  | nil => exact h
  | cons v rest ih =>
      exact ih (handle_vote st v.1 v.2.1 v.2.2)
        (handle_vote_const_battle st v.1 v.2.1 v.2.2 h)

/-- C10: every vote recorded through the public vote path carries the
constant sorted battle pair (model_alpha, model_beta), so any judge whose
history was built through that path and holds more than 5 votes has the
repetitive-battle signal true on that evaluation and every later one. -/
theorem C10_public_path_repetitive_battle (judge : String)
    (votes : List (String × ℚ × String)) :
    (∀ e ∈ (votes.foldl (fun s v => handle_vote s v.1 v.2.1 v.2.2)
        (initState judge)).vote_history,
      e.battle_pair = ("model_alpha", "model_beta")) ∧
    (5 < (votes.foldl (fun s v => handle_vote s v.1 v.2.1 v.2.2)
        (initState judge)).vote_history.length →
      is_repetitive_battle
        (votes.foldl (fun s v => handle_vote s v.1 v.2.1 v.2.2)
          (initState judge)).vote_history = true) := by
  have hall := foldl_handle_vote_const_battle votes (initState judge)
    (by intro e he; simp [initState] at he)
  refine ⟨hall, fun hlen => ?_⟩
  apply decide_eq_true
  apply lt_maxMultiplicity_of_all_eq (x := ("model_alpha", "model_beta"))
  · intro y hy
    obtain ⟨x, hx, hxe⟩ := List.mem_map.mp hy
    have hb := hall x hx
    rw [hxe] at hb
    exact hb
  · rw [List.length_map]
    exact hlen

theorem C10_public_path_repetitive_battle_witness :
    is_repetitive_battle
      (([("model_a", (0:ℚ), "p"), ("model_a", 10, "p"), ("model_a", 20, "p"),
         ("model_a", 30, "p"), ("model_a", 40, "p"), ("model_a", 50, "p")]
        : List (String × ℚ × String)).foldl
          (fun s v => handle_vote s v.1 v.2.1 v.2.2)
          (initState "j")).vote_history = true :=
  (C10_public_path_repetitive_battle "j"
      [("model_a", 0, "p"), ("model_a", 10, "p"), ("model_a", 20, "p"),
       ("model_a", 30, "p"), ("model_a", 40, "p"), ("model_a", 50, "p")]).2
    (by with_unfolding_all decide)

end LMArena
